import Mathlib

/-!
Shallow embedding of the stepper-motor / monochromator core of the
`drivers` repository: `parallel_port.py`, `step_motor.py`,
`thermo_jarrell_ash.py`.

Modelling conventions:
* Python numbers in this core are ints and floats used exactly (no
  float-rounding effects are exercised by the code paths modelled here),
  embedded as `ℚ`; pin numbers, indices and port values are `ℕ`.
* The observable behaviour of the pulse sequencer is the trace of pin
  numbers passed to the activation primitive (`step` / `pin`), in order.
* Python exceptions are modelled with `Except PyError`.  The two
  exceptions reachable in this core are `ValueError` (from
  `list.index(x)` when `x` is not in the list, in `ParallelPort.pin`)
  and `AttributeError` (attribute lookup on an object that does not
  define the attribute).  In particular `thermo_jarrell_ash.py` invokes
  `self.excitation_motor.anticlockwise(...)`, and class `StepMotor`
  defines methods `step`, `clockwise`, `counterclockwise` only — no
  `anticlockwise` exists anywhere in the repository, so that attribute
  lookup raises `AttributeError` before any step is emitted.  Dynamic
  method dispatch on a `StepMotor` is therefore embedded explicitly by
  `StepMotor.callMethod`, keyed by the method name.
-/

namespace Drivers

/-- Python exceptions reachable in the embedded code. -/
inductive PyError where
  | valueError : ℕ → PyError
  | attributeError : String → PyError
deriving DecidableEq

/-! ### parallel_port.py -/

/-- `ParallelPort.pin_set_0x378`: parallel DATA pins. -/
def pin_set_0x378 : List ℕ := [2, 3, 4, 5, 6, 7, 8, 9]

/-- `ParallelPort.pin_set_0x37f`: parallel CONTROL pins. -/
def pin_set_0x37f : List ℕ := [1, 14, 16, 17]

/-- `ParallelPort.dec_0x378`: DECIMAL values activating the DATA pins. -/
def dec_0x378 : List ℕ := [1, 2, 4, 8, 16, 32, 64, 128]

/-- `ParallelPort.dec_0x37f`: DECIMAL values activating the CONTROL pins. -/
def dec_0x37f : List ℕ := [10, 9, 15, 13]

/-- `ParallelPort.pin(pin_number)` for a port constructed at `address`.
Returns the decimal value written to the port by
`self.setpin_command(self.address, H)` (`some H`), or `none` when the
address matches neither branch and the method falls through writing
nothing.  `list.index` raising `ValueError` on a missing element is the
`.error (.valueError _)` case. -/
def ParallelPort.pin (address pin_number : ℕ) : Except PyError (Option ℕ) :=
  if address = 0x378 then
    match pin_set_0x378.findIdx? (· = pin_number) with
    | some dec_index => .ok (some (dec_0x378.getD dec_index 0))
    | none => .error (.valueError pin_number)
  else if address = 0x37f then
    match pin_set_0x37f.findIdx? (· = pin_number) with
    | some dec_index => .ok (some (dec_0x37f.getD dec_index 0))
    | none => .error (.valueError pin_number)
  else
    .ok none

/-- Semantics of the underlying `Out32(address, value)` primitive on the
port's data register: a plain write, the new register value is `value`
regardless of the previous one (no read-modify-write; documented in the
`parallel_port.py` docstring table). -/
def out32Register (previous value : ℕ) : ℕ := value

/-! ### step_motor.py -/

/-- `StepMotor(step_time, parallel_pin_set, parallel_address)`; the class
inherits `ParallelPort`, so the address is a field here. -/
structure StepMotor where
  step_time : ℚ
  parallel_pin_set : List ℕ
  parallel_address : ℕ
deriving DecidableEq

/-- `StepMotor.step(i)`: one pulse — `super().pin(i)` then
`time.sleep(self.step_time)` (the sleep has no observable effect on the
trace). -/
def StepMotor.step (m : StepMotor) (i : ℕ) : Except PyError (Option ℕ) :=
  ParallelPort.pin m.parallel_address i

/-- The `while step_number < number_of_steps` loop shared verbatim (up to
local variable names) by `StepMotor.clockwise` and
`StepMotor.counterclockwise`: emit `pin_list[idx]`, increment the index,
and wrap it back to `0` once it passes `3`.  `number_of_steps` is the
raw Python number, possibly fractional or negative, compared against the
integer loop counter. -/
def stepLoop (pin_list : List ℕ) (number_of_steps : ℚ) (step_number idx : ℕ) : List ℕ :=
  if h : (step_number : ℚ) < number_of_steps then
    pin_list.getD idx 0 ::
      (if idx + 1 ≤ 3 then stepLoop pin_list number_of_steps (step_number + 1) (idx + 1)
       else stepLoop pin_list number_of_steps (step_number + 1) 0)
  else []
termination_by (⌈number_of_steps⌉.toNat - step_number : ℕ)
decreasing_by
  all_goals
    have h1 : (step_number : ℤ) < ⌈number_of_steps⌉ := Int.lt_ceil.mpr (by exact_mod_cast h)
    have h2 : step_number < ⌈number_of_steps⌉.toNat := Int.lt_toNat.mpr h1
    omega

/-- `StepMotor.clockwise(number_of_steps)`: the loop walks
`list(reversed(self.parallel_pin_set))`. -/
def StepMotor.clockwise (m : StepMotor) (number_of_steps : ℚ) : List ℕ :=
  stepLoop m.parallel_pin_set.reverse number_of_steps 0 0

/-- `StepMotor.counterclockwise(number_of_steps)`: the loop walks
`self.parallel_pin_set` in forward order. -/
def StepMotor.counterclockwise (m : StepMotor) (number_of_steps : ℚ) : List ℕ :=
  stepLoop m.parallel_pin_set number_of_steps 0 0

/-- Python attribute dispatch of a sequencing method on a `StepMotor`
instance: the class defines `clockwise` and `counterclockwise`; looking
up any other name (in particular `anticlockwise`, the name used by
`thermo_jarrell_ash.py`) raises `AttributeError` before any step is
emitted. -/
def StepMotor.callMethod (m : StepMotor) (name : String) (arg : ℚ) :
    Except PyError (List ℕ) :=
  if name = "clockwise" then .ok (m.clockwise arg)
  else if name = "counterclockwise" then .ok (m.counterclockwise arg)
  else .error (.attributeError name)

/-! ### thermo_jarrell_ash.py -/

/-- State of a `ThermoJarrellAsh` object.  `__init__` sets only
`serial_number`; `step_factor` and `excitation_motor` are attached later
by `setup_step_motor`, so they are `Option`-valued, `none` meaning the
attribute does not exist on the object (accessing it raises
`AttributeError`). -/
structure ThermoJarrellAsh where
  serial_number : ℕ
  step_factor : Option ℚ
  excitation_motor : Option StepMotor
deriving DecidableEq

/-- `ThermoJarrellAsh.__init__(serial_number)`. -/
def ThermoJarrellAsh.init (serial_number : ℕ) : ThermoJarrellAsh :=
  { serial_number := serial_number, step_factor := none, excitation_motor := none }

/-- Python attribute read: `some` attribute present, `none` raises
`AttributeError` naming the attribute. -/
def getattr {α : Type} (a : Option α) (name : String) : Except PyError α :=
  match a with
  | some x => .ok x
  | none => .error (.attributeError name)

/-- The `sn_6902` device table entries used by the code: step factor 24,
pin sequence `[6, 7, 8, 9]`, pulse width `0.004`. -/
def motor6902 : StepMotor :=
  { step_time := 1/250, parallel_pin_set := [6, 7, 8, 9], parallel_address := 0x378 }

/-- The `sn_34575` device table entries used by the code: step factor
120, pin sequence `[3, 2, 4, 5]`, pulse width `0.004`. -/
def motor34575 : StepMotor :=
  { step_time := 1/250, parallel_pin_set := [3, 2, 4, 5], parallel_address := 0x378 }

/-- `ThermoJarrellAsh.setup_step_motor()`: attaches `step_factor` and
`excitation_motor` for the two recognised serial numbers; any other
serial number matches neither branch and the method returns having done
nothing (no exception, no validation). -/
def ThermoJarrellAsh.setup_step_motor (t : ThermoJarrellAsh) : ThermoJarrellAsh :=
  if t.serial_number = 6902 then
    { t with step_factor := some 24, excitation_motor := some motor6902 }
  else if t.serial_number = 34575 then
    { t with step_factor := some 120, excitation_motor := some motor34575 }
  else t

/-- `ThermoJarrellAsh.backlash()`:
`backsteps = 5 * self.step_factor`, then
`self.excitation_motor.anticlockwise(backsteps)` followed by
`self.excitation_motor.clockwise(backsteps)`. -/
def ThermoJarrellAsh.backlash (t : ThermoJarrellAsh) : Except PyError (List ℕ) := do
  let sf ← getattr t.step_factor "step_factor"
  let backsteps := 5 * sf
  let motor ← getattr t.excitation_motor "excitation_motor"
  let a ← motor.callMethod "anticlockwise" backsteps
  let b ← motor.callMethod "clockwise" backsteps
  pure (a ++ b)

/-- `ThermoJarrellAsh.calibration(display_wl, target_wl)`:
`cal = (target_wl - display_wl) * self.step_factor`; negative `cal`
dispatches `anticlockwise(abs(cal))` then `backlash()`, positive `cal`
dispatches `clockwise(cal)`, zero does nothing. -/
def ThermoJarrellAsh.calibration (t : ThermoJarrellAsh) (display_wl target_wl : ℚ) :
    Except PyError (List ℕ) := do
  let sf ← getattr t.step_factor "step_factor"
  let cal := (target_wl - display_wl) * sf
  if cal < 0 then
    let motor ← getattr t.excitation_motor "excitation_motor"
    let a ← motor.callMethod "anticlockwise" |cal|
    let b ← t.backlash
    pure (a ++ b)
  else if cal > 0 then
    let motor ← getattr t.excitation_motor "excitation_motor"
    motor.callMethod "clockwise" cal
  else
    pure []

/-- `ThermoJarrellAsh.start_up(display_wl, spectral_start)`: same shape
as `calibration` with `start = (spectral_start - display_wl) *
self.step_factor`. -/
def ThermoJarrellAsh.start_up (t : ThermoJarrellAsh) (display_wl spectral_start : ℚ) :
    Except PyError (List ℕ) := do
  let sf ← getattr t.step_factor "step_factor"
  let start := (spectral_start - display_wl) * sf
  if start < 0 then
    let motor ← getattr t.excitation_motor "excitation_motor"
    let a ← motor.callMethod "anticlockwise" |start|
    let b ← t.backlash
    pure (a ++ b)
  else if start > 0 then
    let motor ← getattr t.excitation_motor "excitation_motor"
    motor.callMethod "clockwise" start
  else
    pure []

/-- `ThermoJarrellAsh.step_forward(spectral_step)`:
`step = spectral_step * self.step_factor`, then `clockwise(step)`. -/
def ThermoJarrellAsh.step_forward (t : ThermoJarrellAsh) (spectral_step : ℚ) :
    Except PyError (List ℕ) := do
  let sf ← getattr t.step_factor "step_factor"
  let step := spectral_step * sf
  let motor ← getattr t.excitation_motor "excitation_motor"
  motor.callMethod "clockwise" step

/-- `ThermoJarrellAsh.step_backward(spectral_step)`:
`step = spectral_step * self.step_factor`, then `anticlockwise(step)`
followed by `backlash()`. -/
def ThermoJarrellAsh.step_backward (t : ThermoJarrellAsh) (spectral_step : ℚ) :
    Except PyError (List ℕ) := do
  let sf ← getattr t.step_factor "step_factor"
  let step := spectral_step * sf
  let motor ← getattr t.excitation_motor "excitation_motor"
  let a ← motor.callMethod "anticlockwise" step
  let b ← t.backlash
  pure (a ++ b)

/-- The controller of the `ThermoJarrellAsh` docstring usage,
`ThermoJarrellAsh(34575)`-style but for the 6902 device, after
`setup_step_motor`. -/
def tja6902 : ThermoJarrellAsh := (ThermoJarrellAsh.init 6902).setup_step_motor

/-- The motor of the `step_motor.py` docstring usage:
`sm.StepMotor(0.005, [2, 3, 4, 5], 0x378)`. -/
def demoMotor : StepMotor :=
  { step_time := 1/200, parallel_pin_set := [2, 3, 4, 5], parallel_address := 0x378 }

/-! ### State effect of each method

The Python method bodies of `step`, `clockwise`, `counterclockwise`,
`calibration`, `start_up`, `backlash`, `step_forward` and
`step_backward` assign only local variables (`step_number`, `pin_index`,
`pin`, `reverse_pin_set`, `cal`, `start`, `step`, `backsteps`); no
`self.attribute = ...` statement occurs outside `__init__` and
`setup_step_motor`.  Each method's effect on the object state is
therefore the identity, recorded by the following state-passing forms
(post-state paired with the method's observable result). -/

def StepMotor.stepS (m : StepMotor) (i : ℕ) :
    StepMotor × Except PyError (Option ℕ) := (m, m.step i)

def StepMotor.clockwiseS (m : StepMotor) (n : ℚ) : StepMotor × List ℕ :=
  (m, m.clockwise n)

def StepMotor.counterclockwiseS (m : StepMotor) (n : ℚ) : StepMotor × List ℕ :=
  (m, m.counterclockwise n)

def ThermoJarrellAsh.calibrationS (t : ThermoJarrellAsh) (d w : ℚ) :
    ThermoJarrellAsh × Except PyError (List ℕ) := (t, t.calibration d w)

def ThermoJarrellAsh.start_upS (t : ThermoJarrellAsh) (d s : ℚ) :
    ThermoJarrellAsh × Except PyError (List ℕ) := (t, t.start_up d s)

def ThermoJarrellAsh.backlashS (t : ThermoJarrellAsh) :
    ThermoJarrellAsh × Except PyError (List ℕ) := (t, t.backlash)

def ThermoJarrellAsh.step_forwardS (t : ThermoJarrellAsh) (s : ℚ) :
    ThermoJarrellAsh × Except PyError (List ℕ) := (t, t.step_forward s)

def ThermoJarrellAsh.step_backwardS (t : ThermoJarrellAsh) (s : ℚ) :
    ThermoJarrellAsh × Except PyError (List ℕ) := (t, t.step_backward s)

/-! ### Closed form of the step loop -/

/-- The mathematical shape of the loop trace: `cnt` pins read from
`P`, starting at index `idx` and cycling with period 4. -/
def cyclePins (P : List ℕ) (idx cnt : ℕ) : List ℕ :=
  (List.range cnt).map (fun i => P.getD ((idx + i) % 4) 0)

theorem loopCond (k : ℕ) (n : ℚ) : (k : ℚ) < n ↔ k < ⌈n⌉.toNat := by
  rw [Int.lt_toNat, Int.lt_ceil]
  norm_cast

theorem cyclePins_succ (P : List ℕ) (idx m : ℕ) :
    cyclePins P idx (m + 1) = P.getD (idx % 4) 0 :: cyclePins P ((idx + 1) % 4) m := by
  unfold cyclePins
  rw [List.range_succ_eq_map, List.map_cons, List.map_map]
  refine congrArg₂ _ (by simp) ?_
  apply List.map_congr_left
  intro i _
  simp only [Function.comp_apply]
  congr 1
  omega

theorem cyclePins_length (P : List ℕ) (idx cnt : ℕ) : (cyclePins P idx cnt).length = cnt := by
  simp [cyclePins]

theorem cyclePins_getD (P : List ℕ) (idx cnt i : ℕ) (h : i < cnt) :
    (cyclePins P idx cnt).getD i 0 = P.getD ((idx + i) % 4) 0 := by
  rw [List.getD_eq_getElem (cyclePins P idx cnt) 0 (by simpa [cyclePins_length] using h)]
  simp [cyclePins]

theorem stepLoop_eq_aux (P : List ℕ) (n : ℚ) (M : ℕ) :
    ∀ k idx : ℕ, idx ≤ 3 → ⌈n⌉.toNat - k = M →
      stepLoop P n k idx = cyclePins P idx M := by
  induction M with
  | zero =>
    intro k idx hidx hM
    rw [stepLoop, dif_neg (by rw [loopCond]; omega)]
    simp [cyclePins]
  | succ m ih =>
    intro k idx hidx hM
    rw [stepLoop, dif_pos (by rw [loopCond]; omega)]
    rw [cyclePins_succ, Nat.mod_eq_of_lt (by omega : idx < 4)]
    refine congrArg _ ?_
    by_cases hi : idx + 1 ≤ 3
    · rw [if_pos hi, ih (k + 1) (idx + 1) hi (by omega)]
      congr 1
      omega
    · rw [if_neg hi, ih (k + 1) 0 (by omega) (by omega)]
      congr 1
      omega

/-- The while loop emits exactly `⌈number_of_steps⌉⁺ - step_number`
activations, cycling through `pin_list` with period 4 from `idx`. -/
theorem stepLoop_eq (P : List ℕ) (n : ℚ) (k idx : ℕ) (hidx : idx ≤ 3) :
    stepLoop P n k idx = cyclePins P idx (⌈n⌉.toNat - k) :=
  stepLoop_eq_aux P n (⌈n⌉.toNat - k) k idx hidx rfl

theorem clockwise_eq (m : StepMotor) (n : ℚ) :
    m.clockwise n = cyclePins m.parallel_pin_set.reverse 0 ⌈n⌉.toNat := by
  rw [StepMotor.clockwise, stepLoop_eq _ _ _ _ (by omega), Nat.sub_zero]

theorem counterclockwise_eq (m : StepMotor) (n : ℚ) :
    m.counterclockwise n = cyclePins m.parallel_pin_set 0 ⌈n⌉.toNat := by
  rw [StepMotor.counterclockwise, stepLoop_eq _ _ _ _ (by omega), Nat.sub_zero]

theorem ceil_natCast_toNat (j : ℕ) : (⌈(j : ℚ)⌉).toNat = j := by
  rw [Int.ceil_natCast]
  exact Int.toNat_natCast j

theorem clockwise_natCast (m : StepMotor) (j : ℕ) :
    m.clockwise (j : ℚ) = cyclePins m.parallel_pin_set.reverse 0 j := by
  rw [clockwise_eq, ceil_natCast_toNat]

theorem counterclockwise_natCast (m : StepMotor) (j : ℕ) :
    m.counterclockwise (j : ℚ) = cyclePins m.parallel_pin_set 0 j := by
  rw [counterclockwise_eq, ceil_natCast_toNat]

theorem list_length_four (l : List ℕ) (h : l.length = 4) :
    ∃ a b c d, l = [a, b, c, d] := by
  rcases l with _ | ⟨a, _ | ⟨b, _ | ⟨c, _ | ⟨d, _ | ⟨e, t⟩⟩⟩⟩⟩ <;> simp at h
  exact ⟨a, b, c, d, rfl⟩

theorem cyclePins_add_four (Q : List ℕ) (hQ : Q.length = 4) (a : ℕ) (ha : a % 4 = 0) :
    cyclePins Q 0 (a + 4) = cyclePins Q 0 a ++ Q := by
  obtain ⟨p0, p1, p2, p3, rfl⟩ := list_length_four Q hQ
  unfold cyclePins
  rw [List.range_add, List.map_append, List.map_map]
  refine congrArg _ ?_
  rw [show List.range 4 = [0, 1, 2, 3] from rfl]
  simp only [List.map_cons, List.map_nil, Function.comp_apply]
  rw [show (0 + (a + 0)) % 4 = 0 by omega, show (0 + (a + 1)) % 4 = 1 by omega,
    show (0 + (a + 2)) % 4 = 2 by omega, show (0 + (a + 3)) % 4 = 3 by omega]
  rfl

theorem cyclePins_replicate (Q : List ℕ) (hQ : Q.length = 4) (k : ℕ) :
    cyclePins Q 0 (4 * k) = (List.replicate k Q).flatten := by
  induction k with
  | zero => simp [cyclePins]
  | succ k ih =>
    rw [show 4 * (k + 1) = 4 * k + 4 by omega,
      cyclePins_add_four Q hQ (4 * k) (by omega), ih, List.replicate_succ']
    simp

theorem join_replicate_reverse (Q : List ℕ) (k : ℕ) :
    ((List.replicate k Q).flatten).reverse = (List.replicate k Q.reverse).flatten := by
  induction k with
  | zero => simp
  | succ k ih =>
    rw [List.replicate_succ, List.flatten_cons, List.reverse_append, ih, List.replicate_succ']
    simp

/-! ### Claims -/

/-- C2: for every 4-element pin set `P` and every `n ≥ 0` (a natural
number), `clockwise(n)` emits exactly `n` activations whose `i`-th
element (0-based) is `reverse(P)[i % 4]`, starting at `reverse(P)[0]`;
`counterclockwise(n)` emits exactly `n` activations whose `i`-th element
is `P[i % 4]`, starting at `P[0]`; and for `n = 0` neither operation
emits any activation. -/
theorem claim2_sequencer_cycling (m : StepMotor)
    (h4 : m.parallel_pin_set.length = 4) (n : ℕ) :
    (m.clockwise (n : ℚ)).length = n ∧
    (∀ i, i < n →
      (m.clockwise (n : ℚ)).getD i 0 = m.parallel_pin_set.reverse.getD (i % 4) 0) ∧
    (m.counterclockwise (n : ℚ)).length = n ∧
    (∀ i, i < n →
      (m.counterclockwise (n : ℚ)).getD i 0 = m.parallel_pin_set.getD (i % 4) 0) ∧
    m.clockwise ((0 : ℕ) : ℚ) = [] ∧ m.counterclockwise ((0 : ℕ) : ℚ) = [] := by
  refine ⟨?_, ?_, ?_, ?_, ?_, ?_⟩
  · rw [clockwise_natCast, cyclePins_length]
  · intro i hi
    rw [clockwise_natCast, cyclePins_getD _ _ _ _ hi, Nat.zero_add]
  · rw [counterclockwise_natCast, cyclePins_length]
  · intro i hi
    rw [counterclockwise_natCast, cyclePins_getD _ _ _ _ hi, Nat.zero_add]
  · rw [clockwise_natCast]
    rfl
  · rw [counterclockwise_natCast]
    rfl

/-- C2 witness: the docstring motor (pin set `[2, 3, 4, 5]`) at `n = 6`. -/
theorem claim2_witness :
    demoMotor.parallel_pin_set.length = 4 ∧
    (demoMotor.clockwise ((6 : ℕ) : ℚ)).length = 6 ∧
    (demoMotor.counterclockwise ((6 : ℕ) : ℚ)).length = 6 :=
  ⟨by decide, (claim2_sequencer_cycling demoMotor (by decide) 6).1,
    (claim2_sequencer_cycling demoMotor (by decide) 6).2.2.1⟩

/-- C9: the loops run `while step_number < n` against the raw Python
number `n`, so for every rational (possibly fractional or negative)
count the number of activations emitted is exactly `max 0 ⌈n⌉`, negative
counts emit nothing and raise no error, and the move layer passes the
unrounded product `(target - display) * step_factor` straight into the
sequencer. -/
theorem claim9_ceiling_counts (m : StepMotor) (n : ℚ) (t : ThermoJarrellAsh)
    (sf : ℚ) (motor : StepMotor) (d w : ℚ)
    (hsf : t.step_factor = some sf) (hm : t.excitation_motor = some motor)
    (hpos : 0 < (w - d) * sf) :
    ((m.clockwise n).length : ℤ) = max 0 ⌈n⌉ ∧
    ((m.counterclockwise n).length : ℤ) = max 0 ⌈n⌉ ∧
    (n < 0 → m.clockwise n = [] ∧ m.counterclockwise n = []) ∧
    t.calibration d w = .ok (motor.clockwise ((w - d) * sf)) := by
  refine ⟨?_, ?_, ?_, ?_⟩
  · rw [clockwise_eq, cyclePins_length, Int.toNat_eq_max]
    exact max_comm _ _
  · rw [counterclockwise_eq, cyclePins_length, Int.toNat_eq_max]
    exact max_comm _ _
  · intro hneg
    have hc : ⌈n⌉.toNat = 0 := by
      have h0 : ⌈n⌉ ≤ (0 : ℤ) := Int.ceil_le.mpr (by exact_mod_cast hneg.le)
      omega
    constructor
    · rw [clockwise_eq, hc]
      rfl
    · rw [counterclockwise_eq, hc]
      rfl
  · unfold ThermoJarrellAsh.calibration
    simp only [hsf, hm, getattr, bind, Except.bind]
    rw [if_neg (not_lt.mpr hpos.le), if_pos hpos]
    simp [StepMotor.callMethod]

/-- C9 witness: a negative count emits nothing; `calibration(100, 100.5)`
on the s/n 6902 controller passes the unrounded product `0.5 × 24`. -/
theorem claim9_witness :
    tja6902.step_factor = some 24 ∧ (0 : ℚ) < (201/2 - 100) * 24 ∧
    demoMotor.clockwise (-2) = [] ∧
    tja6902.calibration 100 (201/2) = .ok (motor6902.clockwise ((201/2 - 100) * 24)) := by
  refine ⟨rfl, by norm_num, ?_, ?_⟩
  · exact ((claim9_ceiling_counts demoMotor (-2) tja6902 24 motor6902 100 (201/2) rfl rfl
      (by norm_num)).2.2.1 (by norm_num)).1
  · exact (claim9_ceiling_counts demoMotor (-2) tja6902 24 motor6902 100 (201/2) rfl rfl
      (by norm_num)).2.2.2

/-- C4 counterexample: with the docstring pin set `[2, 3, 4, 5]` and
`n = 1`, `clockwise(1) = [5]` and `counterclockwise(1) = [2]`: the two
halves visit different pin sets and the second half is not the reverse
of the first, so the round-trip claim fails for `n` not a multiple
of 4. -/
theorem claim4_counterexample :
    demoMotor.clockwise 1 = [5] ∧ demoMotor.counterclockwise 1 = [2] ∧
    (demoMotor.clockwise 1).reverse ≠ demoMotor.counterclockwise 1 ∧
    5 ∈ demoMotor.clockwise 1 ∧ 5 ∉ demoMotor.counterclockwise 1 := by
  have h1 : demoMotor.clockwise 1 = [5] := by
    have h := clockwise_natCast demoMotor 1
    norm_num at h
    rw [h]
    decide
  have h2 : demoMotor.counterclockwise 1 = [2] := by
    have h := counterclockwise_natCast demoMotor 1
    norm_num at h
    rw [h]
    decide
  refine ⟨h1, h2, ?_, ?_, ?_⟩
  · rw [h1, h2]
    decide
  · rw [h1]
    decide
  · rw [h2]
    decide

/-- C4 amended: for every 4-element pin set and every step count that is
a multiple of 4, `clockwise(n)` followed by `counterclockwise(n)` is a
round trip on pin sequence shape: the second half is the first half in
reverse order, and in particular both halves visit the same set of
pins. -/
theorem claim4_roundtrip_multiple_of_four (m : StepMotor)
    (h4 : m.parallel_pin_set.length = 4) (k : ℕ) :
    m.counterclockwise ((4 * k : ℕ) : ℚ) = (m.clockwise ((4 * k : ℕ) : ℚ)).reverse ∧
    (∀ p, p ∈ m.clockwise ((4 * k : ℕ) : ℚ) ↔ p ∈ m.counterclockwise ((4 * k : ℕ) : ℚ)) := by
  have hrev : m.parallel_pin_set.reverse.length = 4 := by
    rw [List.length_reverse]
    exact h4
  have hmain : m.counterclockwise ((4 * k : ℕ) : ℚ) =
      (m.clockwise ((4 * k : ℕ) : ℚ)).reverse := by
    rw [counterclockwise_natCast, cyclePins_replicate _ h4, clockwise_natCast,
      cyclePins_replicate _ hrev, join_replicate_reverse, List.reverse_reverse]
  refine ⟨hmain, fun p => ?_⟩
  rw [hmain, List.mem_reverse]

/-- C4 witness: the docstring motor at `n = 4`. -/
theorem claim4_witness :
    demoMotor.parallel_pin_set.length = 4 ∧
    demoMotor.counterclockwise ((4 * 1 : ℕ) : ℚ) =
      (demoMotor.clockwise ((4 * 1 : ℕ) : ℚ)).reverse :=
  ⟨by decide, (claim4_roundtrip_multiple_of_four demoMotor (by decide) 1).1⟩

/-- C1: evaluation of the move layer at the claimed input.  On the
s/n 6902 controller (step factor 24), `calibration(100, 99)` and
`start_up(100, 99)` have `delta = -24 < 0` and the source then invokes
`self.excitation_motor.anticlockwise(24)`; `StepMotor` defines no
`anticlockwise` method, so the call raises `AttributeError` with zero
activations emitted — not the claimed 24 counterclockwise activations
followed by the backlash sequence (264 in total).  The positive and
zero branches behave as claimed: `calibration(100, 101)` emits
`clockwise(24)` and `calibration(100, 100)` emits nothing. -/
theorem claim1_negative_move_raises :
    tja6902.step_factor = some 24 ∧
    tja6902.calibration 100 99 = .error (.attributeError "anticlockwise") ∧
    tja6902.start_up 100 99 = .error (.attributeError "anticlockwise") ∧
    tja6902.calibration 100 101 = .ok (motor6902.clockwise 24) ∧
    tja6902.calibration 100 100 = .ok [] := by
  refine ⟨rfl, ?_, ?_, ?_, ?_⟩
  · simp [ThermoJarrellAsh.calibration, tja6902, ThermoJarrellAsh.setup_step_motor,
      ThermoJarrellAsh.init, getattr, StepMotor.callMethod, bind, Except.bind, pure, Except.pure]
    all_goals norm_num
  · simp [ThermoJarrellAsh.start_up, tja6902, ThermoJarrellAsh.setup_step_motor,
      ThermoJarrellAsh.init, getattr, StepMotor.callMethod, bind, Except.bind, pure, Except.pure]
    all_goals norm_num
  · simp [ThermoJarrellAsh.calibration, tja6902, ThermoJarrellAsh.setup_step_motor,
      ThermoJarrellAsh.init, getattr, StepMotor.callMethod, bind, Except.bind, pure, Except.pure]
    all_goals norm_num
  · simp [ThermoJarrellAsh.calibration, tja6902, ThermoJarrellAsh.setup_step_motor,
      ThermoJarrellAsh.init, getattr, StepMotor.callMethod, bind, Except.bind, pure, Except.pure]

/-- C3: evaluation of `backlash()` on both constructible controllers.
The very first statement of the method body invokes
`self.excitation_motor.anticlockwise(backsteps)`, an attribute that does
not exist, so every call raises `AttributeError` and emits zero
activations — never the claimed `2 × 5 × step_factor` split. -/
theorem claim3_backlash_raises :
    tja6902.backlash = .error (.attributeError "anticlockwise") ∧
    (ThermoJarrellAsh.init 34575).setup_step_motor.backlash =
      .error (.attributeError "anticlockwise") := by
  constructor
  · simp [ThermoJarrellAsh.backlash, tja6902, ThermoJarrellAsh.setup_step_motor,
      ThermoJarrellAsh.init, getattr, StepMotor.callMethod, bind, Except.bind, pure, Except.pure]
  · simp [ThermoJarrellAsh.backlash, ThermoJarrellAsh.setup_step_motor,
      ThermoJarrellAsh.init, getattr, StepMotor.callMethod, bind, Except.bind, pure, Except.pure]

/-- C5: evaluation of the per-increment moves on the s/n 6902
controller.  `step_forward(1)` emits `clockwise(24)` with no backlash,
as claimed; but `step_backward(1)` invokes the nonexistent
`anticlockwise` attribute and raises `AttributeError` with zero
activations, instead of the claimed `1 × 24` counterclockwise
activations followed by backlash. -/
theorem claim5_step_backward_raises :
    tja6902.step_forward 1 = .ok (motor6902.clockwise 24) ∧
    tja6902.step_backward 1 = .error (.attributeError "anticlockwise") := by
  constructor
  · simp [ThermoJarrellAsh.step_forward, tja6902, ThermoJarrellAsh.setup_step_motor,
      ThermoJarrellAsh.init, getattr, StepMotor.callMethod, bind, Except.bind, pure, Except.pure]
  · simp [ThermoJarrellAsh.step_backward, tja6902, ThermoJarrellAsh.setup_step_motor,
      ThermoJarrellAsh.init, getattr, StepMotor.callMethod, bind, Except.bind, pure, Except.pure]

/-- C6 counterexample: nothing is rejected at construction time.
`ThermoJarrellAsh(0)` followed by `setup_step_motor()` completes
silently, returning the controller unchanged and unconfigured rather
than failing; and a controller state carrying the non-positive step
factor `-24` (no code path checks the sign) is fully usable —
`calibration(100, 99)` on it even runs a clockwise move without any
error.  No construction-time rejection exists. -/
theorem claim6_counterexample :
    (ThermoJarrellAsh.init 0).setup_step_motor = ThermoJarrellAsh.init 0 ∧
    ThermoJarrellAsh.calibration
      { serial_number := 0, step_factor := some (-24), excitation_motor := some demoMotor }
      100 99 = .ok (demoMotor.clockwise 24) := by
  constructor
  · rfl
  · simp [ThermoJarrellAsh.calibration, getattr, StepMotor.callMethod,
      bind, Except.bind, pure, Except.pure]
    all_goals norm_num

/-- C6 amended: construction never validates and never fails.  Every
serial number either configures a positive step factor (24 for 6902,
120 for 34575) or is accepted silently, leaving the controller
unconfigured so that its first operation raises `AttributeError` at use
time — the failure happens at first use, not at construction. -/
theorem claim6_no_construction_validation (sn : ℕ) (d w : ℚ) :
    (∃ q, (ThermoJarrellAsh.init sn).setup_step_motor.step_factor = some q ∧ 0 < q) ∨
    ((ThermoJarrellAsh.init sn).setup_step_motor = ThermoJarrellAsh.init sn ∧
      (ThermoJarrellAsh.init sn).setup_step_motor.calibration d w =
        .error (.attributeError "step_factor")) := by
  by_cases h1 : sn = 6902
  · left
    refine ⟨24, ?_, by norm_num⟩
    simp [ThermoJarrellAsh.setup_step_motor, ThermoJarrellAsh.init, h1]
  · by_cases h2 : sn = 34575
    · left
      refine ⟨120, ?_, by norm_num⟩
      simp [ThermoJarrellAsh.setup_step_motor, ThermoJarrellAsh.init, h1, h2]
    · right
      have hset : (ThermoJarrellAsh.init sn).setup_step_motor = ThermoJarrellAsh.init sn := by
        simp [ThermoJarrellAsh.setup_step_motor, ThermoJarrellAsh.init, h1, h2]
      exact ⟨hset, by rw [hset]; rfl⟩

/-- C7 counterexample: activation success is not equivalent to
membership in the configured 4-element winding set.  On the s/n 6902
motor (winding set `[6, 7, 8, 9]`), activating pin 2 — outside the
winding set — succeeds silently (writing decimal 1), and the failure
that does occur for pin 10 is the raw `ValueError` escaping from
`list.index`, not a checked precondition violation. -/
theorem claim7_counterexample :
    motor6902.step 2 = .ok (some 1) ∧ 2 ∉ motor6902.parallel_pin_set ∧
    motor6902.step 10 = .error (.valueError 10) :=
  ⟨rfl, by decide, rfl⟩

/-- C7 amended: the membership check happens at the port layer against
the full 8-element DATA pin set `[2..9]`, not against the configured
4-element winding set: for a motor addressed at `0x378`, an activation
attempt succeeds exactly when the pin lies in `[2..9]`, and otherwise
raises the unchecked `ValueError` coming from `list.index`. -/
theorem claim7_port_level_check (m : StepMotor)
    (h : m.parallel_address = 0x378) (p : ℕ) :
    (p ∈ pin_set_0x378 → ∃ H, m.step p = .ok (some H)) ∧
    (p ∉ pin_set_0x378 → m.step p = .error (.valueError p)) := by
  constructor
  · intro hp
    unfold StepMotor.step ParallelPort.pin
    rw [h]
    fin_cases hp
    · exact ⟨1, rfl⟩
    · exact ⟨2, rfl⟩
    · exact ⟨4, rfl⟩
    · exact ⟨8, rfl⟩
    · exact ⟨16, rfl⟩
    · exact ⟨32, rfl⟩
    · exact ⟨64, rfl⟩
    · exact ⟨128, rfl⟩
  · intro hp
    unfold StepMotor.step ParallelPort.pin
    rw [h, if_pos rfl]
    have hnone : pin_set_0x378.findIdx? (· = p) = none := by
      rw [List.findIdx?_eq_none_iff]
      intro x hx
      simp only [decide_eq_false_iff_not]
      intro hxp
      exact hp (hxp ▸ hx)
    rw [hnone]

/-- C7 witness: pin 11 on the s/n 6902 motor raises `ValueError`. -/
theorem claim7_witness :
    motor6902.parallel_address = 0x378 ∧
    motor6902.step 11 = .error (.valueError 11) :=
  ⟨rfl, (claim7_port_level_check motor6902 rfl 11).2 (by decide)⟩

/-- C8: no operation mutates the controller state after construction —
the method bodies assign only local loop variables, so the pin set,
pulse width (`step_time`), step factor and port address are equal before
and after every call to `step`, `clockwise`, `counterclockwise`,
`calibration`, `start_up`, `backlash`, `step_forward` and
`step_backward`. -/
theorem claim8_frame (m : StepMotor) (t : ThermoJarrellAsh)
    (i : ℕ) (n d w s b f : ℚ) :
    (m.stepS i).1.parallel_pin_set = m.parallel_pin_set ∧
    (m.stepS i).1.step_time = m.step_time ∧
    (m.stepS i).1.parallel_address = m.parallel_address ∧
    (m.clockwiseS n).1 = m ∧
    (m.counterclockwiseS n).1 = m ∧
    (t.calibrationS d w).1.step_factor = t.step_factor ∧
    (t.calibrationS d w).1.excitation_motor = t.excitation_motor ∧
    (t.calibrationS d w).1 = t ∧
    (t.start_upS d s).1 = t ∧
    t.backlashS.1 = t ∧
    (t.step_forwardS f).1 = t ∧
    (t.step_backwardS b).1 = t :=
  ⟨rfl, rfl, rfl, rfl, rfl, rfl, rfl, rfl, rfl, rfl, rfl, rfl⟩

/-- C10: for a port at `0x378` and any pin `p ∈ [2..9]`, `pin(p)` writes
the single decimal `2 ^ (p - 2)` — a value with exactly one bit set, so
exactly one data line is driven high — and the `Out32` write replaces
the previous register state unconditionally (no read-modify-write), so
the previously active winding line is dropped on each step. -/
theorem claim10_single_line_write (p : ℕ) (h2 : 2 ≤ p) (h9 : p ≤ 9) (prev : ℕ) :
    ParallelPort.pin 0x378 p = .ok (some (2 ^ (p - 2))) ∧
    (2 ^ (p - 2)).testBit (p - 2) = true ∧
    (∀ j, j ≠ p - 2 → (2 ^ (p - 2)).testBit j = false) ∧
    out32Register prev (2 ^ (p - 2)) = 2 ^ (p - 2) := by
  refine ⟨?_, Nat.testBit_two_pow_self,
    fun j hj => Nat.testBit_two_pow_of_ne (Ne.symm hj), rfl⟩
  interval_cases p <;> rfl

/-- C10 witness: pin 5 writes decimal 8 whatever the previous register
state. -/
theorem claim10_witness :
    2 ≤ 5 ∧ 5 ≤ 9 ∧ ParallelPort.pin 0x378 5 = .ok (some 8) ∧
    out32Register 255 (2 ^ (5 - 2)) = 2 ^ (5 - 2) :=
  ⟨by decide, by decide, (claim10_single_line_write 5 (by decide) (by decide) 255).1,
    (claim10_single_line_write 5 (by decide) (by decide) 255).2.2.2⟩

end Drivers
